import Mathlib

/-!
Shallow embedding of the Lab-Tool program (src/main.py) for checking its
natural-language specification.  The embedding covers:

- the HID boot-keyboard report encoder of LabTool.send_key, modelled on ASCII
  codepoints (the Python predicates str.isalpha, str.isupper, str.islower and
  membership in the digit string agree with the definitions below on the
  ASCII range 0..127);
- the HID report descriptor list written by LabTool.configure_usb_gadget;
- a trace model of LabTool.configure_usb_gadget as the ordered list of
  side-effecting steps it performs, with a failure oracle saying which steps
  raise, mirroring the single try/except of the Python function;
- a state-machine model of the command handlers do_emulate and do_keyboard
  over the session fields selected_iso, usb_gadget_configured,
  keyboard_active, keyboard_thread and emulating;
- a model of write_hid_report and one iteration of keyboard_thread_func with
  a device-outcome oracle, mirroring the try/except that swallows per-write
  failures.
-/

namespace LabTool

/-- Python chr(0), the NUL padding character used in every report. -/
def NULL_CHAR : Nat := 0

/-- Python str.isupper on a single character, restricted to ASCII codepoints:
true exactly on 65..90 (the uppercase letters). -/
def isUpperChar (c : Nat) : Bool := 65 ≤ c && c ≤ 90

/-- Python str.islower on a single character, restricted to ASCII codepoints:
true exactly on 97..122 (the lowercase letters). -/
def isLowerChar (c : Nat) : Bool := 97 ≤ c && c ≤ 122

/-- Python str.isalpha on a single character, restricted to ASCII codepoints. -/
def isAlphaChar (c : Nat) : Bool := isUpperChar c || isLowerChar c

/-- Python str.lower on a single ASCII codepoint. -/
def lowerChar (c : Nat) : Nat := if isUpperChar c then c + 32 else c

/-- Membership of a codepoint in the Python string literal of the ten digits
used by send_key, which is the ASCII range 48..57. -/
def isDigitKey (c : Nat) : Bool := 48 ≤ c && c ≤ 57

/-- The key-down report string that LabTool.send_key builds for the character
with codepoint c, given as the list of the codepoints of its eight characters,
or none when no branch of the if/elif chain matches (unsupported character).
Mirrors the branch structure of send_key in src/main.py lines 300-315:
uppercase letters get modifier chr(32) and keycode (lowercase codepoint - 93),
lowercase letters keycode (codepoint - 93), digits keycode (codepoint - 19),
newline keycode 40, space keycode 44. -/
def sendKeyDownReport (c : Nat) : Option (List Nat) :=
  if isAlphaChar c then
    if isUpperChar c then
      some ([32, NULL_CHAR, lowerChar c - 93] ++ List.replicate 5 NULL_CHAR)
    else
      some ([NULL_CHAR, NULL_CHAR, c - 93] ++ List.replicate 5 NULL_CHAR)
  else if isDigitKey c then
    some ([NULL_CHAR, NULL_CHAR, c - 19] ++ List.replicate 5 NULL_CHAR)
  else if c = 10 then
    some ([NULL_CHAR, NULL_CHAR, 40] ++ List.replicate 5 NULL_CHAR)
  else if c = 32 then
    some ([NULL_CHAR, NULL_CHAR, 44] ++ List.replicate 5 NULL_CHAR)
  else
    none

/-- The all-zero release report that send_key writes unconditionally after the
if/elif chain (src/main.py line 318). -/
def releaseReport : List Nat := List.replicate 8 NULL_CHAR

/-- All report strings that one call of send_key passes to write_hid_report,
in order: the key-down report when some branch matched, then always the
all-zero release report. -/
def sendKeyReports (c : Nat) : List (List Nat) :=
  (match sendKeyDownReport c with
   | some r => [r]
   | none => []) ++ [releaseReport]

/-- The characters for which send_key has a key-down branch: ASCII letters,
digits, newline and space. -/
def supportedChar (c : Nat) : Bool :=
  isAlphaChar c || isDigitKey c || c == 10 || c == 32

/-- Number of bytes the UTF-8 encoding of one codepoint occupies; Python
str.encode applies this per character of the report string. -/
def utf8Len (c : Nat) : Nat :=
  if c < 128 then 1 else if c < 2048 then 2 else if c < 65536 then 3 else 4

/-- Number of bytes Python str.encode produces for a string given as the list
of its codepoints. -/
def strUtf8Len (s : List Nat) : Nat := (s.map utf8Len).sum

/-- The HID report descriptor list written byte for byte to
functions/hid.keyboard/report_desc (src/main.py lines 191-215). -/
def report_desc : List Nat :=
  [0x05, 0x01,
   0x09, 0x06,
   0xA1, 0x01,
   0x05, 0x07,
   0x19, 0xE0,
   0x29, 0xE7,
   0x15, 0x00,
   0x25, 0x01,
   0x75, 0x01,
   0x95, 0x08,
   0x81, 0x02,
   0x95, 0x01,
   0x75, 0x08,
   0x81, 0x03,
   0x95, 0x06,
   0x75, 0x08,
   0x15, 0x00,
   0x25, 0x65,
   0x05, 0x07,
   0x19, 0x00,
   0x29, 0x65,
   0x81, 0x00,
   0xC0]

/-- One side-effecting step of LabTool.configure_usb_gadget, in the order the
Python function performs them (src/main.py lines 151-248), plus the error
print of its except handler. -/
inductive GStep where
  | cleanup
  | mkGadgetDir
  | chdirGadget
  | writeIdVendor
  | writeIdProduct
  | writeBcdDevice
  | writeBcdUSB
  | mkStringsDir
  | writeSerialNumber
  | writeManufacturer
  | writeProduct
  | mkHidFunction
  | writeProtocol
  | writeSubclass
  | writeReportLength
  | writeReportDesc
  | mkMassStorageFunction
  | mkConfigDir
  | writeConfiguration
  | writeMaxPower
  | symlinkHid
  | symlinkMassStorage
  | readUdcList
  | writeUDC
  | chmodHidDevice
  | printError
  deriving DecidableEq, Repr

/-- The activation steps of configure_usb_gadget after the initial
cleanup_gadget call, in program order. -/
def activationSteps : List GStep :=
  [.mkGadgetDir, .chdirGadget, .writeIdVendor, .writeIdProduct, .writeBcdDevice,
   .writeBcdUSB, .mkStringsDir, .writeSerialNumber, .writeManufacturer,
   .writeProduct, .mkHidFunction, .writeProtocol, .writeSubclass,
   .writeReportLength, .writeReportDesc, .mkMassStorageFunction, .mkConfigDir,
   .writeConfiguration, .writeMaxPower, .symlinkHid, .symlinkMassStorage,
   .readUdcList, .writeUDC, .chmodHidDevice]

/-- Whether a step can raise a Python exception: cleanup_gadget swallows its
own errors, chmod runs through os.system which reports failure only by exit
code, and the error print itself does not raise. -/
def canRaise : GStep → Bool
  | .cleanup => false
  | .chmodHidDevice => false
  | .printError => false
  | _ => true

/-- Run of a step list under a failure oracle: the first step that can raise
and does aborts into the except handler, which prints the error and returns
False; otherwise the steps run in order and the run returns True. -/
def runSteps (failOn : GStep → Bool) : List GStep → List GStep × Bool
  | [] => ([], true)
  | s :: rest =>
      if canRaise s && failOn s then
        ([s, GStep.printError], false)
      else
        let r := runSteps failOn rest
        (s :: r.1, r.2)

/-- Trace model of configure_usb_gadget: cleanup_gadget runs first, inside
the try, then the activation steps in order; on failure the except handler
only prints the error and returns False. The boolean result is also the value
stored into usb_gadget_configured when the run returns True. -/
def configure_usb_gadget (failOn : GStep → Bool) : List GStep × Bool :=
  let r := runSteps failOn activationSteps
  (GStep.cleanup :: r.1, r.2)

/-- The failure oracle that fails exactly the UDC binding write, the step
that fails on hardware without an exposed USB device controller. -/
def failOnUDC : GStep → Bool := fun s => s == GStep.writeUDC

/-- Observable effects of the command handlers do_emulate and do_keyboard:
prints, the call into configure_usb_gadget, writes of the mass-storage
backing-file attribute and thread operations. -/
inductive CmdAct where
  | printNeedRoot
  | printNoIso
  | printConfiguring
  | printConfigError
  | printEmulateStopped
  | printEmulateStopError
  | printEmulateStartError
  | printEmulating (iso : String)
  | printKeyboardStarted
  | printKeyboardStopped
  | configureGadget
  | writeLun (content : String)
  | startThread
  | joinThread
  deriving DecidableEq, Repr

/-- The mutable session fields of the LabTool object that the command
handlers read and write. -/
structure LabState where
  selected_iso : Option String
  usb_gadget_configured : Bool
  keyboard_active : Bool
  keyboard_thread : Bool
  emulating : Bool
  deriving DecidableEq, Repr

/-- Outcomes of the effectful operations a command handler performs: whether
the process runs as root, whether configure_usb_gadget succeeds, and whether
writing the backing-file attribute of lun.0 succeeds. -/
structure Env where
  isRoot : Bool
  configureOk : Bool
  lunWriteOk : Bool
  deriving DecidableEq, Repr

/-- Binding phase of do_emulate once an image is selected and the gadget is
configured: write the image path into lun.0/file and set emulating, or print
the error and leave the state unchanged (src/main.py lines 274-280). -/
def emulateBind (env : Env) (st : LabState) (iso : String)
    (pre : List CmdAct) : LabState × List CmdAct :=
  if env.lunWriteOk then
    ({ st with emulating := true },
     pre ++ [.writeLun iso, .printEmulating iso])
  else
    (st, pre ++ [.printEmulateStartError])

/-- State-and-trace model of LabTool.do_emulate (src/main.py lines 250-280),
including the require_root decorator. The stop branch writes an empty
backing-file value and clears emulating only when emulating was set; the
start branch requires a selected image, configures the gadget lazily, then
binds the image. -/
def do_emulate (env : Env) (st : LabState) (arg : String) :
    LabState × List CmdAct :=
  if env.isRoot = false then (st, [.printNeedRoot])
  else if arg = "stop" then
    if st.emulating then
      if env.lunWriteOk then
        ({ st with emulating := false }, [.writeLun "", .printEmulateStopped])
      else
        (st, [.printEmulateStopError])
    else (st, [])
  else
    match st.selected_iso with
    | none => (st, [.printNoIso])
    | some iso =>
      if st.usb_gadget_configured = false then
        if env.configureOk then
          emulateBind env { st with usb_gadget_configured := true } iso
            [.printConfiguring, .configureGadget]
        else
          (st, [.printConfiguring, .configureGadget, .printConfigError])
      else
        emulateBind env st iso []

/-- Start phase of do_keyboard once the gadget is configured: when the
keyboard is not active, set the active flag, print, create and start the
capture thread; when it is already active, fall through with no effect
(src/main.py lines 348-353). -/
def keyboardStart (st : LabState) (pre : List CmdAct) :
    LabState × List CmdAct :=
  if st.keyboard_active = false then
    ({ st with keyboard_active := true, keyboard_thread := true },
     pre ++ [.printKeyboardStarted, .startThread])
  else (st, pre)

/-- State-and-trace model of LabTool.do_keyboard (src/main.py lines 331-353),
including the require_root decorator. The stop branch clears the active flag
and joins the thread when one exists; the start branch configures the gadget
lazily and then starts the capture thread unless one is already active. -/
def do_keyboard (env : Env) (st : LabState) (arg : String) :
    LabState × List CmdAct :=
  if env.isRoot = false then (st, [.printNeedRoot])
  else if arg = "stop" then
    if st.keyboard_active then
      ({ st with keyboard_active := false },
       (if st.keyboard_thread then [CmdAct.joinThread] else []) ++
         [.printKeyboardStopped])
    else (st, [])
  else
    if st.usb_gadget_configured = false then
      if env.configureOk then
        keyboardStart { st with usb_gadget_configured := true }
          [.printConfiguring, .configureGadget]
      else
        (st, [.printConfiguring, .configureGadget, .printConfigError])
    else
      keyboardStart st []

/-- Effects of one call of write_hid_report under a device outcome: a
successful open-and-write of the report bytes, or the logged error print of
its except handler. The function itself never raises (src/main.py lines
323-329). -/
inductive HidAct where
  | devWrite (report : List Nat)
  | logWriteError
  deriving DecidableEq, Repr

/-- Model of LabTool.write_hid_report with an outcome oracle for the device
write: on success the report is written, on failure the error is printed and
swallowed; the function always returns normally. -/
def write_hid_report (devOk : Bool) (report : List Nat) : List HidAct :=
  if devOk then [.devWrite report] else [.logWriteError]

/-- Effects of one call of send_key under per-write device outcomes, indexed
in call order: the key-down write when a branch matched, then the
unconditional release write. -/
def send_key_acts (devOk : Nat → Bool) (c : Nat) : List HidAct :=
  match sendKeyDownReport c with
  | some r =>
      write_hid_report (devOk 0) r ++ write_hid_report (devOk 1) releaseReport
  | none => write_hid_report (devOk 0) releaseReport

/-- The session fields keyboard_thread_func can observe: the active flag it
polls and the thread handle field. -/
structure KeySession where
  keyboard_active : Bool
  keyboard_thread : Bool
  deriving DecidableEq, Repr

/-- One iteration of the while loop of keyboard_thread_func (src/main.py
lines 286-289): when the active flag holds, read one character and, when one
arrived, send it; the iteration returns the session unchanged and the loop
re-tests the active flag. -/
def keyboard_iteration (devOk : Nat → Bool) (s : KeySession)
    (input : Option Nat) : KeySession × List HidAct :=
  if s.keyboard_active then
    match input with
    | some c => (s, send_key_acts devOk c)
    | none => (s, [])
  else (s, [])

/-- C1, counterexample: the first HID report produced for codepoint 65
(uppercase A) has modifier byte 32 (0x20, the right-shift bit), whose
left-shift bit 0x02 is clear, refuting the claim that the left-shift modifier
bit is set for every uppercase letter. -/
theorem upper_modifier_not_left_shift :
    ((sendKeyReports 65).headD []).headD 0 = 32 ∧
    ((sendKeyReports 65).headD []).headD 0 &&& 2 ≠ 2 := by decide

/-- C1, amended: for every uppercase ASCII letter, the key-down report has
modifier byte 32 (0x20, the right-shift modifier bit, not the left-shift bit
0x02) and the same keycode as the report of its lowercase counterpart, namely
the lowercase codepoint minus 93. -/
theorem upper_uses_right_shift_same_keycode : ∀ c, c < 91 → 65 ≤ c →
    sendKeyDownReport c = some [32, 0, lowerChar c - 93, 0, 0, 0, 0, 0] ∧
    sendKeyDownReport (lowerChar c) =
      some [0, 0, lowerChar c - 93, 0, 0, 0, 0, 0] := by decide

/-- C1, witness: the amended statement instantiated at codepoint 65
(uppercase A). -/
theorem upper_uses_right_shift_same_keycode_witness :
    sendKeyDownReport 65 = some [32, 0, lowerChar 65 - 93, 0, 0, 0, 0, 0] ∧
    sendKeyDownReport (lowerChar 65) =
      some [0, 0, lowerChar 65 - 93, 0, 0, 0, 0, 0] :=
  upper_uses_right_shift_same_keycode 65 (by decide) (by decide)

/-- C2, counterexample: codepoint 33 (exclamation mark) is outside the
supported set, yet processing it writes one report, the all-zero release
report, refuting the claim that no write occurs at all. -/
theorem unsupported_char_still_writes_release :
    supportedChar 33 = false ∧
    sendKeyReports 33 = [releaseReport] ∧
    (sendKeyReports 33).length ≠ 0 := by decide

/-- C2, amended: for every ASCII character outside the supported set,
processing it writes exactly one report to the HID device: the all-zero
release report (the key-down report is dropped, the unconditional release
write still happens). -/
theorem unsupported_char_exactly_release : ∀ c, c < 128 →
    supportedChar c = false → sendKeyReports c = [releaseReport] := by decide

/-- C2, witness: the amended statement instantiated at codepoint 33. -/
theorem unsupported_char_exactly_release_witness :
    sendKeyReports 33 = [releaseReport] :=
  unsupported_char_exactly_release 33 (by decide) (by decide)

/-- C4: evaluation of send_key at the failing input, codepoint 48 (the digit
zero): the key-down report carries keycode 48 - 19 = 29, which is the USB HID
keycode of the letter z, not 39, the HID keycode of the digit zero required by
the numeric row ordering the claim and the USB HID usage table describe. -/
theorem digit_zero_wrong_keycode :
    sendKeyDownReport 48 = some [0, 0, 29, 0, 0, 0, 0, 0] ∧ (29 : Nat) ≠ 39 ∧
    (∀ c, c < 58 → 49 ≤ c →
      sendKeyDownReport c = some [0, 0, c - 19, 0, 0, 0, 0, 0]) := by decide

/-- C5, counterexample: the report descriptor written during gadget activation
is not 63 bytes long. -/
theorem report_desc_not_63 : report_desc.length ≠ 63 := by decide

/-- C5, amended: the report descriptor written to report_desc is exactly 45
bytes long (the boot-keyboard input items without the LED output report items
of the canonical 63-byte descriptor). -/
theorem report_desc_length_45 : report_desc.length = 45 := by decide

/-- C6: for every supported ASCII character, send_key passes exactly two
report strings to write_hid_report, each of eight characters encoding to
exactly eight bytes, and the second is the all-zero release report. -/
theorem supported_char_two_reports : ∀ c, c < 128 → supportedChar c = true →
    (sendKeyReports c).length = 2 ∧
    (∀ r ∈ sendKeyReports c, r.length = 8 ∧ strUtf8Len r = 8) ∧
    (sendKeyReports c).getLastD [] = List.replicate 8 0 := by decide

/-- C6, witness: the statement instantiated at codepoint 97 (lowercase a). -/
theorem supported_char_two_reports_witness :
    (sendKeyReports 97).length = 2 ∧
    (∀ r ∈ sendKeyReports 97, r.length = 8 ∧ strUtf8Len r = 8) ∧
    (sendKeyReports 97).getLastD [] = List.replicate 8 0 :=
  supported_char_two_reports 97 (by decide) (by decide)

/-- Every step in the trace of a run either comes from the step list that was
run or is the error print of the except handler. -/
theorem runSteps_mem (failOn : GStep → Bool) (l : List GStep) :
    ∀ s ∈ (runSteps failOn l).1, s ∈ l ∨ s = GStep.printError := by
  induction l with
  | nil => intro s hs; simp [runSteps] at hs
  | cons a rest ih =>
      intro s hs
      by_cases h : (canRaise a && failOn a) = true
      · rw [runSteps, if_pos h] at hs
        rcases List.mem_cons.mp hs with hs | hs
        · exact Or.inl (hs ▸ List.mem_cons_self a rest)
        · rcases List.mem_cons.mp hs with hs | hs
          · exact Or.inr hs
          · cases hs
      · rw [runSteps, if_neg h] at hs
        rcases List.mem_cons.mp hs with hs | hs
        · exact Or.inl (hs ▸ List.mem_cons_self a rest)
        · rcases ih s hs with h1 | h1
          · exact Or.inl (List.mem_cons_of_mem a h1)
          · exact Or.inr h1

/-- A run that returns False put the error print into its trace. -/
theorem runSteps_false_printError (failOn : GStep → Bool) (l : List GStep) :
    (runSteps failOn l).2 = false →
      GStep.printError ∈ (runSteps failOn l).1 := by
  induction l with
  | nil => intro h; simp [runSteps] at h
  | cons a rest ih =>
      intro h
      by_cases hc : (canRaise a && failOn a) = true
      · rw [runSteps, if_pos hc]
        exact List.mem_cons_of_mem a (List.mem_cons_self _ _)
      · rw [runSteps, if_neg hc] at h ⊢
        exact List.mem_cons_of_mem a (ih h)

/-- C3, counterexample: when the UDC binding write fails, the run of
configure_usb_gadget returns False, its trace ends with the error print, and
the only cleanup in the trace is the one at its head, before any activation
step ran: no teardown happens between the failure and the surfaced error, so
the partially built gadget state is left in place. -/
theorem failed_activation_performs_no_teardown :
    (configure_usb_gadget failOnUDC).2 = false ∧
    (configure_usb_gadget failOnUDC).1.getLast? = some GStep.printError ∧
    (configure_usb_gadget failOnUDC).1.head? = some GStep.cleanup ∧
    (configure_usb_gadget failOnUDC).1.count GStep.cleanup = 1 := by decide

/-- C3, amended: on any step failure configure_usb_gadget prints the error
and returns False without attempting any teardown — the trace contains no
cleanup after its first action; a retry starts from a clean state only
because every activation attempt begins by calling cleanup_gadget. -/
theorem activation_cleans_before_not_after (failOn : GStep → Bool) :
    (configure_usb_gadget failOn).1.head? = some GStep.cleanup ∧
    (∀ s ∈ (configure_usb_gadget failOn).1.tail, s ≠ GStep.cleanup) ∧
    ((configure_usb_gadget failOn).2 = false →
      GStep.printError ∈ (configure_usb_gadget failOn).1) := by
  refine ⟨rfl, ?_, ?_⟩
  · intro s hs
    have h := runSteps_mem failOn activationSteps s hs
    rcases h with h | h
    · intro heq
      subst heq
      revert h
      decide
    · intro heq
      rw [heq] at h
      cases h
  · intro h
    have h2 := runSteps_false_printError failOn activationSteps h
    exact List.mem_cons_of_mem _ h2

/-- C3, witness: the amended statement instantiated at the oracle that fails
the UDC binding write. -/
theorem activation_cleans_before_not_after_witness :
    (configure_usb_gadget failOnUDC).1.head? = some GStep.cleanup ∧
    (∀ s ∈ (configure_usb_gadget failOnUDC).1.tail, s ≠ GStep.cleanup) ∧
    ((configure_usb_gadget failOnUDC).2 = false →
      GStep.printError ∈ (configure_usb_gadget failOnUDC).1) :=
  activation_cleans_before_not_after failOnUDC

/-- C7: invoked as root with no image selected and any argument other than
stop, do_emulate leaves the whole session state unchanged and performs only
the error print — in particular no configure_usb_gadget call and no
backing-file write appear in its trace. -/
theorem emulate_start_without_iso_unchanged (env : Env) (st : LabState)
    (arg : String) (hroot : env.isRoot = true) (harg : arg ≠ "stop")
    (hiso : st.selected_iso = none) :
    do_emulate env st arg = (st, [CmdAct.printNoIso]) := by
  simp [do_emulate, hroot, harg, hiso]

/-- C7, witness: the statement instantiated at a concrete root environment
and the initial session state. -/
theorem emulate_start_without_iso_unchanged_witness :
    do_emulate ⟨true, true, true⟩ ⟨none, false, false, false, false⟩ "start" =
      (⟨none, false, false, false, false⟩, [CmdAct.printNoIso]) :=
  emulate_start_without_iso_unchanged ⟨true, true, true⟩
    ⟨none, false, false, false, false⟩ "start" rfl (by decide) rfl

/-- C8: invoked as root with stop while emulating and with the backing-file
write succeeding, do_emulate writes the empty backing-file value, clears the
emulating flag, and leaves the configured flag, the keyboard-active flag and
the selected image unchanged. -/
theorem emulate_stop_clears_binding_only (env : Env) (st : LabState)
    (hroot : env.isRoot = true) (hem : st.emulating = true)
    (hw : env.lunWriteOk = true) :
    do_emulate env st "stop" =
      ({ st with emulating := false },
       [CmdAct.writeLun "", CmdAct.printEmulateStopped]) ∧
    (do_emulate env st "stop").1.usb_gadget_configured =
      st.usb_gadget_configured ∧
    (do_emulate env st "stop").1.keyboard_active = st.keyboard_active ∧
    (do_emulate env st "stop").1.selected_iso = st.selected_iso ∧
    (do_emulate env st "stop").1.emulating = false := by
  have h : do_emulate env st "stop" =
      ({ st with emulating := false },
       [CmdAct.writeLun "", CmdAct.printEmulateStopped]) := by
    simp [do_emulate, hroot, hem, hw]
  rw [h]
  exact ⟨rfl, rfl, rfl, rfl, rfl⟩

/-- C8, witness: the statement instantiated at a concrete root environment
and a session that is emulating a selected image on a configured gadget. -/
theorem emulate_stop_clears_binding_only_witness :
    do_emulate ⟨true, true, true⟩ ⟨some "a.iso", true, false, false, true⟩
        "stop" =
      ({ LabState.mk (some "a.iso") true false false true with
          emulating := false },
       [CmdAct.writeLun "", CmdAct.printEmulateStopped]) ∧
    (do_emulate ⟨true, true, true⟩
        ⟨some "a.iso", true, false, false, true⟩ "stop").1.usb_gadget_configured =
      (LabState.mk (some "a.iso") true false false true).usb_gadget_configured ∧
    (do_emulate ⟨true, true, true⟩
        ⟨some "a.iso", true, false, false, true⟩ "stop").1.keyboard_active =
      (LabState.mk (some "a.iso") true false false true).keyboard_active ∧
    (do_emulate ⟨true, true, true⟩
        ⟨some "a.iso", true, false, false, true⟩ "stop").1.selected_iso =
      (LabState.mk (some "a.iso") true false false true).selected_iso ∧
    (do_emulate ⟨true, true, true⟩
        ⟨some "a.iso", true, false, false, true⟩ "stop").1.emulating = false :=
  emulate_stop_clears_binding_only ⟨true, true, true⟩
    ⟨some "a.iso", true, false, false, true⟩ rfl rfl rfl

/-- C9: one iteration of the capture loop returns the session unchanged for
every device outcome — in particular the active flag still holds, so the loop
proceeds to the next keystroke — and when the first device write fails the
trace carries the logged error instead of a propagated exception (the model
of write_hid_report is a total function into effect lists, mirroring the
except handler that swallows the error). -/
theorem keystroke_write_failure_swallowed (devOk : Nat → Bool)
    (s : KeySession) (c : Nat) (hact : s.keyboard_active = true) :
    (keyboard_iteration devOk s (some c)).1 = s ∧
    (keyboard_iteration devOk s (some c)).1.keyboard_active = true ∧
    (keyboard_iteration devOk s (some c)).1.keyboard_thread =
      s.keyboard_thread ∧
    (devOk 0 = false →
      HidAct.logWriteError ∈ (keyboard_iteration devOk s (some c)).2) := by
  have h : keyboard_iteration devOk s (some c) = (s, send_key_acts devOk c) := by
    simp [keyboard_iteration, hact]
  rw [h]
  refine ⟨rfl, hact, rfl, ?_⟩
  intro hfail
  unfold send_key_acts
  cases hr : sendKeyDownReport c with
  | none => simp [write_hid_report, hfail]
  | some r => simp [write_hid_report, hfail]

/-- C9, witness: the statement instantiated at the always-failing device
oracle, an active session and codepoint 97. -/
theorem keystroke_write_failure_swallowed_witness :
    (keyboard_iteration (fun _ => false) ⟨true, true⟩ (some 97)).1 =
      (⟨true, true⟩ : KeySession) ∧
    (keyboard_iteration (fun _ => false) ⟨true, true⟩
        (some 97)).1.keyboard_active = true ∧
    (keyboard_iteration (fun _ => false) ⟨true, true⟩
        (some 97)).1.keyboard_thread =
      (KeySession.mk true true).keyboard_thread ∧
    ((fun _ => false : Nat → Bool) 0 = false →
      HidAct.logWriteError ∈
        (keyboard_iteration (fun _ => false) ⟨true, true⟩ (some 97)).2) :=
  keystroke_write_failure_swallowed (fun _ => false) ⟨true, true⟩ 97 rfl

/-- C10: invoked as root with start while the keyboard is already active on a
configured gadget, do_keyboard is a complete no-op — state unchanged, no
actions, in particular no second thread creation — and therefore applying
start twice from such a state equals applying it once. -/
theorem keyboard_start_idempotent (env : Env) (st : LabState)
    (hroot : env.isRoot = true) (hact : st.keyboard_active = true)
    (hcfg : st.usb_gadget_configured = true) :
    do_keyboard env st "start" = (st, []) ∧
    do_keyboard env (do_keyboard env st "start").1 "start" =
      do_keyboard env st "start" := by
  have h : do_keyboard env st "start" = (st, []) := by
    simp [do_keyboard, keyboardStart, hroot, hact, hcfg]
  exact ⟨h, by simp [h]⟩

/-- C10, witness: the statement instantiated at a concrete root environment
and a session with the keyboard active on a configured gadget. -/
theorem keyboard_start_idempotent_witness :
    do_keyboard ⟨true, true, true⟩ ⟨none, true, true, true, false⟩ "start" =
      ((⟨none, true, true, true, false⟩ : LabState), []) ∧
    do_keyboard ⟨true, true, true⟩
        (do_keyboard ⟨true, true, true⟩
          ⟨none, true, true, true, false⟩ "start").1 "start" =
      do_keyboard ⟨true, true, true⟩
        ⟨none, true, true, true, false⟩ "start" :=
  keyboard_start_idempotent ⟨true, true, true⟩
    ⟨none, true, true, true, false⟩ rfl rfl rfl

end LabTool
